import Mathlib

/-!
Verification development for the Ivy LLM Notion paper-summarizer sync
pipeline (`main.py`).  The Python functions are shallowly embedded as pure
Lean functions; every external effect (HTTP request to the extraction
service, LLM chat-completion call, Notion query/create call, `json.loads`)
is an explicit oracle parameter describing the outcome of that one call.
Machine-level details that no claim depends on (exact Python `repr`
escaping inside `str()` of nested containers, unicode whitespace beyond
ASCII in `str.strip()`, the `Date-Added` wall-clock timestamp) are noted at
their definitions.
-/

namespace Ivy

/-- Dynamically-typed Python values as they occur in this program: strings,
integers, lists and (string-keyed) dicts, which is the shape of every value
produced by `json.loads` on the JSON objects this program handles. -/
inductive PyVal where
  | str (s : String)
  | int (n : Int)
  | list (xs : List PyVal)
  | dict (kvs : List (String × PyVal))
deriving Repr

/-- Left curly brace character (written via its code point). -/
def lbrace : Char := Char.ofNat 123

/-- Right curly brace character (written via its code point). -/
def rbrace : Char := Char.ofNat 125

mutual
/-- Python `repr` of a value.  String quoting is simplified: the surrounding
single quotes are produced but escape sequences inside the string are
elided (no claim exercises `repr` of a string containing a quote). -/
def pyRepr : PyVal → String
  | .str s => "'" ++ s ++ "'"
  | .int n => toString n
  | .list xs => "[" ++ pyReprElems xs ++ "]"
  | .dict kvs => String.singleton lbrace ++ pyReprPairs kvs ++ String.singleton rbrace

/-- Comma-separated `repr`s of list elements. -/
def pyReprElems : List PyVal → String
  | [] => ""
  | [v] => pyRepr v
  | v :: vs => pyRepr v ++ ", " ++ pyReprElems vs

/-- Comma-separated `repr`s of dict entries. -/
def pyReprPairs : List (String × PyVal) → String
  | [] => ""
  | [(k, v)] => "'" ++ k ++ "': " ++ pyRepr v
  | (k, v) :: kvs => "'" ++ k ++ "': " ++ pyRepr v ++ ", " ++ pyReprPairs kvs
end

/-- Python `str()` of a value: a string is itself, an int prints in decimal,
containers print via `repr` of their elements. -/
def pyStr : PyVal → String
  | .str s => s
  | v => pyRepr v

mutual
/-- Python `json.dumps(..., ensure_ascii=False)` of a value, with the default
separators `", "` and `": "`.  String escaping is elided (no claim exercises
dumping a string containing a quote or backslash). -/
def pyJsonDumps : PyVal → String
  | .str s => "\"" ++ s ++ "\""
  | .int n => toString n
  | .list xs => "[" ++ pyJsonDumpsElems xs ++ "]"
  | .dict kvs => String.singleton lbrace ++ pyJsonDumpsPairs kvs ++ String.singleton rbrace

/-- Comma-separated JSON dumps of list elements. -/
def pyJsonDumpsElems : List PyVal → String
  | [] => ""
  | [v] => pyJsonDumps v
  | v :: vs => pyJsonDumps v ++ ", " ++ pyJsonDumpsElems vs

/-- Comma-separated JSON dumps of dict entries. -/
def pyJsonDumpsPairs : List (String × PyVal) → String
  | [] => ""
  | [(k, v)] => "\"" ++ k ++ "\": " ++ pyJsonDumps v
  | (k, v) :: kvs => "\"" ++ k ++ "\": " ++ pyJsonDumps v ++ ", " ++ pyJsonDumpsPairs kvs
end

/-- Python truthiness of a value (`bool(v)`): empty string/list/dict and the
integer 0 are falsy, everything else is truthy. -/
def pyTruthy : PyVal → Bool
  | .str s => !(s == "")
  | .int n => !(n == 0)
  | .list xs => !xs.isEmpty
  | .dict kvs => !kvs.isEmpty

/-- Python dict lookup `d.get(k)` on a string-keyed dict (association list
with unique keys as produced by `json.loads`). -/
def dictGet (kvs : List (String × PyVal)) (k : String) : Option PyVal :=
  (kvs.find? (fun p => p.1 == k)).map (fun p => p.2)

/-- Python dict lookup with default, `d.get(k, dflt)`. -/
def dictGetD (kvs : List (String × PyVal)) (k : String) (dflt : PyVal) : PyVal :=
  (dictGet kvs k).getD dflt

/-- Python `d.setdefault(k, v)`: insert `(k, v)` (at the end, matching dict
insertion order) only when `k` is absent. -/
def setdefault (kvs : List (String × PyVal)) (k : String) (v : PyVal) :
    List (String × PyVal) :=
  match dictGet kvs k with
  | some _ => kvs
  | none => kvs ++ [(k, v)]

/-- Python iteration `[ ... for t in v ]` over a value: lists yield their
elements, strings yield their characters as one-character strings, dicts
yield their keys; iterating an int raises `TypeError` (`none`). -/
def pyIter : PyVal → Option (List PyVal)
  | .list xs => some xs
  | .str s => some (s.data.map (fun c => PyVal.str (String.singleton c)))
  | .dict kvs => some (kvs.map (fun p => PyVal.str p.1))
  | .int _ => none

/-- Python `str.strip()` restricted to ASCII whitespace (space, tab, CR, LF);
the unicode whitespace Python additionally strips is not exercised by any
claim. -/
def pyStrip (s : String) : String :=
  String.mk (((s.data.dropWhile Char.isWhitespace).reverse.dropWhile
    Char.isWhitespace).reverse)

/-- Python slicing `s[:n]` (by code point). -/
def pyTake (n : Nat) (s : String) : String :=
  String.mk (s.data.take n)

/-- Python `s.find(c)`: index of the first occurrence, or -1. -/
def pyFindChar (s : String) (c : Char) : Int :=
  match s.data.findIdx? (fun x => x == c) with
  | some i => (i : Int)
  | none => -1

/-- Python `s.rfind(c)`: index of the last occurrence, or -1. -/
def pyRFindChar (s : String) (c : Char) : Int :=
  match s.data.reverse.findIdx? (fun x => x == c) with
  | some i => (s.data.length : Int) - 1 - (i : Int)
  | none => -1

/-- Python slice-bound semantics: a negative index counts from the end, then
the result is clamped into `[0, n]`. -/
def pySliceIdx (n : Nat) (i : Int) : Nat :=
  if i < 0 then (i + n).toNat else min i.toNat n

/-- Python slicing `s[a:b]` with full negative-index and clamping
semantics. -/
def pySlice (s : String) (a b : Int) : String :=
  let l := s.data
  let a' := pySliceIdx l.length a
  let b' := pySliceIdx l.length b
  String.mk ((l.take b').drop a')

/-- Python `x or y` on an optional string `x` with string fallback `y`
(`None` and `""` are falsy). -/
def optStrOr (a : Option String) (b : String) : String :=
  match a with
  | some s => if s = "" then b else s
  | none => b

/-- Sentence-terminating punctuation, the character class of the regular
expression used by the summarization fallback. -/
def isTermChar (c : Char) : Bool := c == '.' || c == '!' || c == '?'

/-- Negation of `isTermChar`, the other character class of that regex. -/
def notTermChar (c : Char) : Bool := !isTermChar c

/-- Scanner for `re.findall(r"[^.!?]+[.!?]+", text)`: `body` and `punct`
hold (reversed) the non-terminator run and terminator run of the match
being built; a completed match is emitted when a non-terminator character
follows a nonempty terminator run, or at end of input.  Invariant: `punct`
nonempty implies `body` nonempty. -/
def scanSentences (cs : List Char) (body punct : List Char) : List String :=
  match cs with
  | [] =>
    if body.isEmpty || punct.isEmpty then []
    else [String.mk (body.reverse ++ punct.reverse)]
  | c :: rest =>
    if isTermChar c then
      if body.isEmpty then scanSentences rest [] []
      else scanSentences rest body (c :: punct)
    else
      if punct.isEmpty then scanSentences rest (c :: body) []
      else String.mk (body.reverse ++ punct.reverse) :: scanSentences rest [c] []

/-- Semantics of `re.findall(r"[^.!?]+[.!?]+", text)`: the non-overlapping
left-to-right matches, each a maximal nonempty run of non-terminator
characters followed by a maximal nonempty run of terminator characters. -/
def findSentences (cs : List Char) : List String :=
  scanSentences cs [] []

/-- One chat-completion message as the Fireworks client returns it:
`content` and `reasoning_content` are each either a string or
missing/`None` (`none`). -/
structure LLMMessage where
  content : Option String
  reasoning_content : Option String

/-- Raw output extraction shared by both LLM call sites:
`(message.content or getattr(message, "reasoning_content", "") or
"").strip()`. -/
def rawOutput (m : LLMMessage) : String :=
  pyStrip (optStrOr m.content (optStrOr m.reasoning_content ""))

/-- Embedding of `compress_text_with_fireworks(text)`.  The oracle `llm` is
the outcome of the single `fw.chat.completions.create` call: `none` when it
(or the subsequent `response.choices[0]` access) raises, `some m` when it
returns a message.  The prompt construction (fixed instructions plus
`text[:8000]`) is absorbed into the oracle, which stands for this one
invocation. -/
def compress_text_with_fireworks (llm : Option LLMMessage) (text : String) :
    String :=
  if pyStrip text = "" then ""
  else
    match llm with
    | some m => rawOutput m
    | none => text

/-- The eight required summary keys, in the order the code lists them. -/
def requiredKeys : List String :=
  ["title", "objective", "methods", "results", "contributions",
   "one_sentence_summary", "authors", "tags"]

/-- Default used by the key-filling loop: `"" if k != "tags" else []`. -/
def defaultFor (k : String) : PyVal :=
  if k = "tags" then PyVal.list [] else PyVal.str ""

/-- The loop `for k in [...]: data.setdefault(k, "" if k != "tags" else
[])`. -/
def ensureKeys (kvs : List (String × PyVal)) : List (String × PyVal) :=
  requiredKeys.foldl (fun d k => setdefault d k (defaultFor k)) kvs

/-- The fallback value of `one_sentence_summary`:
`" ".join(sentences[:3]) if sentences else text[:300]` over the regex
matches. -/
def fallbackSummary (text : String) : String :=
  if (findSentences text.data).isEmpty then pyTake 300 text
  else String.intercalate " " ((findSentences text.data).take 3)

/-- The extractive fallback record built in the `except` branch of
`summarize_text`. -/
def fallbackRecord (text : String) : List (String × PyVal) :=
  [("title", PyVal.str ""), ("objective", PyVal.str ""),
   ("methods", PyVal.str ""), ("results", PyVal.str ""),
   ("contributions", PyVal.str ""),
   ("one_sentence_summary", PyVal.str (fallbackSummary text)),
   ("authors", PyVal.str ""), ("tags", PyVal.list [])]

/-- The JSON-substring selection of `summarize_text`:
`raw[raw.find("…"):raw.rfind("…")+1]` over the brace characters, with
Python slice semantics. -/
def extractJsonStr (raw : String) : String :=
  pySlice raw (pyFindChar raw lbrace) (pyRFindChar raw rbrace + 1)

/-- Embedding of `summarize_text(text)`.  `llm` is the outcome of the
chat-completion call (`none` = any exception up to and including the
`choices[0].message` access); `jsonLoads` is the behavior of `json.loads`
on the selected substring (`none` = it raises); a parse result that is not
a dict makes the subsequent `data.setdefault` raise, which the enclosing
`try` also converts into the fallback. -/
def summarize_text (jsonLoads : String → Option PyVal) (llm : Option LLMMessage)
    (text : String) : List (String × PyVal) :=
  if text = "" then requiredKeys.map (fun k => (k, PyVal.str ""))
  else
    match llm with
    | none => fallbackRecord text
    | some m =>
      match jsonLoads (extractJsonStr (rawOutput m)) with
      | some (PyVal.dict kvs) => ensureKeys kvs
      | _ => fallbackRecord text

/-- Outcome of the primary extraction path's single HTTP round trip:
`requests.post` raised, `raise_for_status` raised (non-2xx), `res.json()`
raised, or a parsed JSON body. -/
inductive MarkItDownResult where
  | netError
  | httpError
  | jsonError
  | ok (data : PyVal)

/-- The primary-path body check of `extract_text_from_pdf`: it yields text
only when the body is a dict whose `"text"` entry is a string with
non-whitespace content; every other shape ends in a raised-and-caught
exception (`ValueError` for missing/empty text, `AttributeError`/`TypeError`
for non-string or non-dict bodies), i.e. `none`. -/
def primaryText : MarkItDownResult → Option String
  | .ok (.dict kvs) =>
    match dictGet kvs "text" with
    | some (.str s) => if pyStrip s = "" then none else some s
    | _ => none
  | _ => none

/-- Embedding of `extract_text_from_pdf(filepath)`.  `primary` is the
MarkItDown call outcome; `fallbackPages` is the PyPDF2 outcome: `none` when
`PdfReader`/page iteration raises, otherwise the list of
`page.extract_text()` results (`none` for a page returning `None`).  The
fallback joins pages with single spaces and returns the `strip()` of that
join; if it too raises, the result is the empty string. -/
def extract_text_from_pdf (primary : MarkItDownResult)
    (fallbackPages : Option (List (Option String))) : String :=
  match primaryText primary with
  | some s => s
  | none =>
    match fallbackPages with
    | some pages =>
      pyStrip (String.intercalate " " (pages.map (fun p => p.getD "")))
    | none => ""

/-- Outcome of the single Notion query round trip in
`find_notion_page_by_file_name`: the POST raised, or a response with its
2xx flag and (when `res.json()` does not raise) parsed body. -/
inductive QueryResult where
  | raised
  | response (ok : Bool) (body : Option PyVal)

/-- Python subscript `v[0]`: head of a list, first character of a string;
on an empty list/string, a dict, or an int it raises (`none`). -/
def pySubscript0 : PyVal → Option PyVal
  | .list (x :: _) => some x
  | .str s =>
    match s.data with
    | c :: _ => some (PyVal.str (String.singleton c))
    | [] => none
  | _ => none

/-- Embedding of `find_notion_page_by_file_name(file_name)`: on any raised
exception (transport error, `raise_for_status` on non-2xx, JSON decode
error, or a body shape making `data.get`/`results[0]` raise) it returns
`None`; otherwise `results[0] if results else None` over
`data.get("results", [])`. -/
def find_notion_page_by_file_name (q : QueryResult) : Option PyVal :=
  match q with
  | .raised => none
  | .response false _ => none
  | .response true none => none
  | .response true (some (.dict kvs)) =>
    let results := dictGetD kvs "results" (PyVal.list [])
    if pyTruthy results then
      match pySubscript0 results with
      | some page => some page
      | none => none
    else none
  | .response true (some _) => none

/-- Embedding of `normalize_text(value)`: lists are joined with `"; "` via
`str()` of each element, dicts are JSON-dumped, everything else is
`str()`-converted. -/
def normalize_text : PyVal → String
  | .list xs => String.intercalate "; " (xs.map pyStr)
  | .dict kvs => pyJsonDumps (.dict kvs)
  | v => pyStr v

/-- The property map `push_to_notion` sends to the Notion page-create
endpoint.  The `Date-Added` wall-clock timestamp is environment-dependent
and not modelled; the remaining properties are all here. -/
structure NotionPayload where
  title : String
  objective : String
  methods : String
  results : String
  contributions : String
  summary : String
  author : String
  tags : List String
  status : String
  fileName : String
deriving DecidableEq, Repr

/-- Payload construction of `push_to_notion(name, summary_data)`.  The only
way it can raise before the HTTP call is the tag comprehension
`[{"name": normalize_text(t)} for t in summary_data.get("tags", [])]`
iterating a non-iterable value (`none`).  `Title` uses
`summary_data.get('title') or name`. -/
def push_to_notion_payload (name : String) (sd : List (String × PyVal)) :
    Option NotionPayload :=
  match pyIter (dictGetD sd "tags" (PyVal.list [])) with
  | none => none
  | some ts =>
    some
      { title := normalize_text
          (match dictGet sd "title" with
           | some v => if pyTruthy v then v else PyVal.str name
           | none => PyVal.str name)
        objective := normalize_text (dictGetD sd "objective" (PyVal.str ""))
        methods := normalize_text (dictGetD sd "methods" (PyVal.str ""))
        results := normalize_text (dictGetD sd "results" (PyVal.str ""))
        contributions := normalize_text (dictGetD sd "contributions" (PyVal.str ""))
        summary := normalize_text (dictGetD sd "one_sentence_summary" (PyVal.str ""))
        author := normalize_text (dictGetD sd "authors" (PyVal.str ""))
        tags := ts.map normalize_text
        status := "To Read"
        fileName := normalize_text (PyVal.str name) }

/-- The external world one loop iteration of `main` interacts with: the
outcomes of this document's Notion dedup query, MarkItDown call, PyPDF2
fallback, the two LLM calls, `json.loads` behavior, and the record-create
POST (`none` = `requests.post` raised, `some ok` = a response arrived with
2xx flag `ok`). -/
structure DocOracle where
  findQ : QueryResult
  primary : MarkItDownResult
  fallbackPages : Option (List (Option String))
  compressLLM : Option LLMMessage
  summLLM : Option LLMMessage
  jsonLoads : String → Option PyVal
  pushResult : Option Bool

/-- Observable events of one run of `main`, tagged with the document's
filename: the dedup skip, each stage invocation, the two skip conditions,
and an issued record-create call. -/
inductive Event where
  | dedupSkip (name : String)
  | extractCall (name : String)
  | skipEmptyText (name : String)
  | compressCall (name : String)
  | summarizeCall (name : String)
  | skipEmptySummary (name : String)
  | createCall (name : String)
deriving DecidableEq, Repr

/-- The three points where an exception can escape a loop iteration of
`main`: the orchestrator's `.strip()` on a non-string
`one_sentence_summary` value, the tag comprehension in `push_to_notion`
iterating a non-iterable, and the record-create `requests.post` raising. -/
inductive RunError where
  | summaryFieldTypeError
  | pushPayloadTypeError
  | pushRequestRaised
deriving DecidableEq, Repr

/-- One iteration of the `for filepath in pdf_files` loop of `main`:
returns the events that occurred and, when an exception escapes the
iteration, which one. -/
def processFile (name : String) (o : DocOracle) : List Event × Option RunError :=
  match find_notion_page_by_file_name o.findQ with
  | some _ => ([Event.dedupSkip name], none)
  | none =>
    let text := extract_text_from_pdf o.primary o.fallbackPages
    if pyStrip text = "" then
      ([Event.extractCall name, Event.skipEmptyText name], none)
    else
      let compressed := compress_text_with_fireworks o.compressLLM text
      let sd := summarize_text o.jsonLoads o.summLLM compressed
      let stageEvs := [Event.extractCall name, Event.compressCall name,
        Event.summarizeCall name]
      match dictGetD sd "one_sentence_summary" (PyVal.str "") with
      | PyVal.str s =>
        if pyStrip s = "" then (stageEvs ++ [Event.skipEmptySummary name], none)
        else
          match push_to_notion_payload name sd with
          | none => (stageEvs, some RunError.pushPayloadTypeError)
          | some _ =>
            match o.pushResult with
            | none => (stageEvs, some RunError.pushRequestRaised)
            | some _ => (stageEvs ++ [Event.createCall name], none)
      | _ => (stageEvs, some RunError.summaryFieldTypeError)

/-- The whole `main` loop over the enumerated documents (each paired with
its external-world oracle): iterations run in order; an exception escaping
one iteration aborts the loop, leaving the remaining documents
unprocessed. -/
def mainRun : List (String × DocOracle) → List Event × Option RunError
  | [] => ([], none)
  | (n, o) :: rest =>
    let p := processFile n o
    match p.2 with
    | some e => (p.1, some e)
    | none =>
      let r := mainRun rest
      (p.1 ++ r.1, r.2)

/-- Names of the documents for which a record-create call was issued. -/
def createNames (evs : List Event) : List String :=
  evs.filterMap fun e =>
    match e with
    | .createCall n => some n
    | _ => none

/-- Names of the documents for which the extraction stage was invoked. -/
def extractNames (evs : List Event) : List String :=
  evs.filterMap fun e =>
    match e with
    | .extractCall n => some n
    | _ => none

/-- Names of the documents for which the compression stage was invoked. -/
def compressNames (evs : List Event) : List String :=
  evs.filterMap fun e =>
    match e with
    | .compressCall n => some n
    | _ => none

/-- Names of the documents for which the summarization stage was invoked. -/
def summarizeNames (evs : List Event) : List String :=
  evs.filterMap fun e =>
    match e with
    | .summarizeCall n => some n
    | _ => none

/-- A parsed summary dict is well typed for the orchestrator when its
`one_sentence_summary` entry (if present) is a string and its `tags` entry
(if present) is not an int, the two shapes whose violation lets an
exception escape the loop iteration. -/
def wellTypedParse : PyVal → Bool
  | .dict kvs =>
    (match dictGet kvs "one_sentence_summary" with
     | some (PyVal.str _) => true
     | none => true
     | _ => false) &&
    (match dictGet kvs "tags" with
     | some (PyVal.int _) => false
     | _ => true)
  | _ => true

/-- A `json.loads` behavior is safe when every successful parse is well
typed for the orchestrator. -/
def safeJson (jl : String → Option PyVal) : Prop :=
  ∀ s v, jl s = some v → wellTypedParse v = true

/-! ## Helper lemmas about the dict operations -/

theorem dictGet_append_of_none {d₁ : List (String × PyVal)} {k : String}
    (h : dictGet d₁ k = none) (d₂ : List (String × PyVal)) :
    dictGet (d₁ ++ d₂) k = dictGet d₂ k := by
  induction d₁ with
  | nil => rfl
  | cons a d₁ ih =>
    simp only [dictGet, List.find?, List.cons_append] at *
    cases hb : (a.1 == k) with
    | true => simp [hb] at h
    | false =>
      simp only [hb] at h ⊢
      exact ih h

theorem dictGet_setdefault_self (d : List (String × PyVal)) (k : String)
    (v : PyVal) :
    dictGet (setdefault d k v) k = some ((dictGet d k).getD v) := by
  unfold setdefault
  cases h : dictGet d k with
  | some w => simp [h]
  | none =>
    simp only [h, Option.getD_none]
    rw [dictGet_append_of_none h]
    simp [dictGet, List.find?]

theorem dictGet_append_left_of_some {d₁ : List (String × PyVal)} {k : String}
    {w : PyVal} (h : dictGet d₁ k = some w) (d₂ : List (String × PyVal)) :
    dictGet (d₁ ++ d₂) k = some w := by
  induction d₁ with
  | nil => simp [dictGet, List.find?] at h
  | cons a d₁ ih =>
    simp only [dictGet, List.find?, List.cons_append] at h ⊢
    cases hb : (a.1 == k) with
    | true => simpa [hb] using h
    | false =>
      simp only [hb] at h ⊢
      exact ih h

theorem dictGet_setdefault_ne (d : List (String × PyVal)) {k k' : String}
    (v : PyVal) (hne : k' ≠ k) :
    dictGet (setdefault d k v) k' = dictGet d k' := by
  unfold setdefault
  cases h : dictGet d k with
  | some w => rfl
  | none =>
    cases h' : dictGet d k' with
    | some w => exact dictGet_append_left_of_some h' [(k, v)]
    | none =>
      rw [dictGet_append_of_none h']
      simp only [dictGet, List.find?]
      have : (k == k') = false := by
        simp only [beq_eq_false_iff_ne, ne_eq]
        exact fun hkk => hne hkk.symm
      simp [this]

theorem dictGet_foldl_setdefault_of_some {d : List (String × PyVal)}
    {k : String} {w : PyVal} (ks : List String)
    (h : dictGet d k = some w) :
    dictGet (ks.foldl (fun d' k' => setdefault d' k' (defaultFor k')) d) k
      = some w := by
  induction ks generalizing d with
  | nil => exact h
  | cons k0 ks ih =>
    simp only [List.foldl_cons]
    apply ih
    by_cases hk : k = k0
    · subst hk
      rw [dictGet_setdefault_self, h]
      rfl
    · rw [dictGet_setdefault_ne _ _ hk]
      exact h

theorem dictGet_foldl_setdefault_mem {k : String} (ks : List String)
    (d : List (String × PyVal)) (hmem : k ∈ ks) :
    dictGet (ks.foldl (fun d' k' => setdefault d' k' (defaultFor k')) d) k
      = some ((dictGet d k).getD (defaultFor k)) := by
  induction ks generalizing d with
  | nil => cases hmem
  | cons k0 ks ih =>
    simp only [List.foldl_cons]
    by_cases hk : k = k0
    · subst hk
      apply dictGet_foldl_setdefault_of_some
      exact dictGet_setdefault_self d k (defaultFor k)
    · rcases List.mem_cons.1 hmem with h | h
      · exact absurd h hk
      · rw [ih (setdefault d k0 (defaultFor k0)) h,
          dictGet_setdefault_ne _ _ hk]

theorem dictGet_ensureKeys {k : String} (kvs : List (String × PyVal))
    (h : k ∈ requiredKeys) :
    dictGet (ensureKeys kvs) k = some ((dictGet kvs k).getD (defaultFor k)) :=
  dictGet_foldl_setdefault_mem requiredKeys kvs h

/-! ## Helper lemmas about the paths through summarize_text -/

theorem dictGet_map_const {k : String} (ks : List String) (f : String → PyVal)
    (h : k ∈ ks) :
    dictGet (ks.map (fun k' => (k', f k'))) k = some (f k) := by
  induction ks with
  | nil => cases h
  | cons k0 ks ih =>
    simp only [List.map_cons, dictGet, List.find?]
    cases hb : (k0 == k) with
    | true =>
      have : k0 = k := by simpa using hb
      subst this
      rfl
    | false =>
      simp only
      rcases List.mem_cons.1 h with h' | h'
      · exact absurd h'.symm (by simpa using hb)
      · exact ih h'

theorem dictGet_fallbackRecord (text : String) {k : String}
    (h : k ∈ requiredKeys) :
    dictGet (fallbackRecord text) k =
      some (if k = "one_sentence_summary" then PyVal.str (fallbackSummary text)
            else defaultFor k) := by
  simp only [requiredKeys, List.mem_cons, List.not_mem_nil, or_false] at h
  rcases h with rfl | rfl | rfl | rfl | rfl | rfl | rfl | rfl <;> rfl

theorem summarize_isSome {k : String} (jl : String → Option PyVal)
    (llm : Option LLMMessage) (text : String) (h : k ∈ requiredKeys) :
    (dictGet (summarize_text jl llm text) k).isSome = true := by
  unfold summarize_text
  split
  · rw [dictGet_map_const requiredKeys _ h]
    rfl
  · match llm with
    | none =>
      rw [dictGet_fallbackRecord text h]
      rfl
    | some m =>
      cases hjl : jl (extractJsonStr (rawOutput m)) with
      | none =>
        simp only [hjl]
        rw [dictGet_fallbackRecord text h]
        rfl
      | some v =>
        cases v with
        | dict kvs =>
          simp only [hjl]
          rw [dictGet_ensureKeys kvs h]
          rfl
        | str s =>
          simp only [hjl]
          rw [dictGet_fallbackRecord text h]
          rfl
        | int n =>
          simp only [hjl]
          rw [dictGet_fallbackRecord text h]
          rfl
        | list xs =>
          simp only [hjl]
          rw [dictGet_fallbackRecord text h]
          rfl

theorem osv_mem_requiredKeys : "one_sentence_summary" ∈ requiredKeys := by
  simp [requiredKeys]

theorem tags_mem_requiredKeys : "tags" ∈ requiredKeys := by
  simp [requiredKeys]

theorem summarize_osv_str (jl : String → Option PyVal)
    (llm : Option LLMMessage) (text : String) (hsafe : safeJson jl) :
    ∃ s, dictGet (summarize_text jl llm text) "one_sentence_summary"
      = some (PyVal.str s) := by
  unfold summarize_text
  split
  · exact ⟨"", by rw [dictGet_map_const requiredKeys _ osv_mem_requiredKeys]⟩
  · match llm with
    | none =>
      exact ⟨fallbackSummary text, by
        rw [dictGet_fallbackRecord text osv_mem_requiredKeys]
        rfl⟩
    | some m =>
      cases hjl : jl (extractJsonStr (rawOutput m)) with
      | none =>
        exact ⟨fallbackSummary text, by
          simp only [hjl]
          rw [dictGet_fallbackRecord text osv_mem_requiredKeys]
          rfl⟩
      | some v =>
        cases v with
        | dict kvs =>
          have hwt := hsafe _ _ hjl
          simp only [wellTypedParse, Bool.and_eq_true] at hwt
          simp only [hjl]
          rw [dictGet_ensureKeys kvs osv_mem_requiredKeys]
          cases hosv : dictGet kvs "one_sentence_summary" with
          | none => exact ⟨"", rfl⟩
          | some w =>
            cases w with
            | str s => exact ⟨s, rfl⟩
            | int n => rw [hosv] at hwt; simp at hwt
            | list xs => rw [hosv] at hwt; simp at hwt
            | dict kvs' => rw [hosv] at hwt; simp at hwt
        | str s =>
          exact ⟨fallbackSummary text, by
            simp only [hjl]
            rw [dictGet_fallbackRecord text osv_mem_requiredKeys]
            rfl⟩
        | int n =>
          exact ⟨fallbackSummary text, by
            simp only [hjl]
            rw [dictGet_fallbackRecord text osv_mem_requiredKeys]
            rfl⟩
        | list xs =>
          exact ⟨fallbackSummary text, by
            simp only [hjl]
            rw [dictGet_fallbackRecord text osv_mem_requiredKeys]
            rfl⟩

theorem pyIter_isSome_of_ne_int {v : PyVal} (h : ∀ n : Int, v ≠ PyVal.int n) :
    (pyIter v).isSome = true := by
  cases v with
  | str s => rfl
  | int n => exact absurd rfl (h n)
  | list xs => rfl
  | dict kvs => rfl

theorem summarize_tags_iter (jl : String → Option PyVal)
    (llm : Option LLMMessage) (text : String) (hsafe : safeJson jl) :
    (pyIter (dictGetD (summarize_text jl llm text) "tags"
      (PyVal.list []))).isSome = true := by
  unfold dictGetD
  unfold summarize_text
  split
  · rw [dictGet_map_const requiredKeys _ tags_mem_requiredKeys]
    rfl
  · match llm with
    | none =>
      rw [dictGet_fallbackRecord text tags_mem_requiredKeys]
      rfl
    | some m =>
      cases hjl : jl (extractJsonStr (rawOutput m)) with
      | none =>
        simp only [hjl]
        rw [dictGet_fallbackRecord text tags_mem_requiredKeys]
        rfl
      | some v =>
        cases v with
        | dict kvs =>
          have hwt := hsafe _ _ hjl
          simp only [wellTypedParse, Bool.and_eq_true] at hwt
          simp only [hjl]
          rw [dictGet_ensureKeys kvs tags_mem_requiredKeys]
          cases htags : dictGet kvs "tags" with
          | none => rfl
          | some w =>
            apply pyIter_isSome_of_ne_int
            intro n hn
            rw [htags] at hwt
            subst hn
            simp at hwt
        | str s =>
          simp only [hjl]
          rw [dictGet_fallbackRecord text tags_mem_requiredKeys]
          rfl
        | int n =>
          simp only [hjl]
          rw [dictGet_fallbackRecord text tags_mem_requiredKeys]
          rfl
        | list xs =>
          simp only [hjl]
          rw [dictGet_fallbackRecord text tags_mem_requiredKeys]
          rfl

theorem push_payload_isSome (name : String) (sd : List (String × PyVal))
    (h : (pyIter (dictGetD sd "tags" (PyVal.list []))).isSome = true) :
    (push_to_notion_payload name sd).isSome = true := by
  obtain ⟨ts, hts⟩ := Option.isSome_iff_exists.1 h
  unfold push_to_notion_payload
  rw [hts]
  rfl

/-! ## Helper lemmas about the orchestrator loop -/

theorem processFile_found (n : String) (o : DocOracle)
    (h : (find_notion_page_by_file_name o.findQ).isSome = true) :
    processFile n o = ([Event.dedupSkip n], none) := by
  obtain ⟨p, hp⟩ := Option.isSome_iff_exists.1 h
  unfold processFile
  rw [hp]

theorem processFile_no_error (n : String) (o : DocOracle)
    (hpush : o.pushResult.isSome = true) (hsafe : safeJson o.jsonLoads) :
    (processFile n o).2 = none := by
  unfold processFile
  cases hfind : find_notion_page_by_file_name o.findQ with
  | some p => rfl
  | none =>
    simp only
    split
    · rfl
    · obtain ⟨s, hs⟩ := summarize_osv_str o.jsonLoads o.summLLM
        (compress_text_with_fireworks o.compressLLM
          (extract_text_from_pdf o.primary o.fallbackPages)) hsafe
      have htags := summarize_tags_iter o.jsonLoads o.summLLM
        (compress_text_with_fireworks o.compressLLM
          (extract_text_from_pdf o.primary o.fallbackPages)) hsafe
      simp only [dictGetD, hs, Option.getD_some]
      split
      · rfl
      · obtain ⟨pl, hpl⟩ := Option.isSome_iff_exists.1
          (push_payload_isSome n _ htags)
        rw [hpl]
        obtain ⟨b, hb⟩ := Option.isSome_iff_exists.1 hpush
        rw [hb]

theorem mainRun_all_found (files : List (String × DocOracle))
    (h : ∀ f ∈ files, (find_notion_page_by_file_name f.2.findQ).isSome = true) :
    mainRun files = (files.map (fun f => Event.dedupSkip f.1), none) := by
  induction files with
  | nil => rfl
  | cons f rest ih =>
    unfold mainRun
    rw [processFile_found f.1 f.2 (h f (List.mem_cons_self f rest))]
    simp only
    rw [ih (fun g hg => h g (List.mem_cons_of_mem f hg))]
    simp

/-! ## Claim C1 -/

/-- Oracle of a new document whose pipeline succeeds up to the record
creation, where the `requests.post` of `push_to_notion` raises a transport
error. -/
def abortingDocOracle : DocOracle :=
  { findQ := QueryResult.raised
    primary := MarkItDownResult.ok (PyVal.dict [("text", PyVal.str "Hello there.")])
    fallbackPages := none
    compressLLM := none
    summLLM := none
    jsonLoads := fun _ => none
    pushResult := none }

/-- Oracle of a second, fully healthy document that the aborted run never
reaches. -/
def healthyDocOracle : DocOracle :=
  { findQ := QueryResult.response true
      (some (PyVal.dict [("results", PyVal.list [PyVal.dict []])]))
    primary := MarkItDownResult.netError
    fallbackPages := some [some "Second paper."]
    compressLLM := none
    summLLM := none
    jsonLoads := fun _ => none
    pushResult := some true }

/-- Claim C1 counterexample: with two documents where the first one's
record-creation POST raises a transport error, the orchestrator loop
observes the exception and aborts — the second document produces no event
at all, refuting "any exception raised inside the iteration (including
during record creation) is caught and converted to a skip-with-warning". -/
theorem push_transport_exception_aborts_batch :
    (mainRun [("a.pdf", abortingDocOracle), ("b.pdf", healthyDocOracle)]).2
      = some RunError.pushRequestRaised
    ∧ (mainRun [("a.pdf", abortingDocOracle), ("b.pdf", healthyDocOracle)]).1
      = [Event.extractCall "a.pdf", Event.compressCall "a.pdf",
         Event.summarizeCall "a.pdf"] :=
  ⟨rfl, rfl⟩

/-- Claim C1 (amended): every stage before record creation absorbs its own
failures — for arbitrary outcomes of the dedup query, the extraction calls,
and the two LLM calls, no exception reaches the orchestrator; the only ways
an iteration can abort the batch are a raised record-creation POST and a
parsed LLM summary whose `one_sentence_summary` or `tags` value is
ill-typed.  When neither occurs for any document, the run completes with no
observed exception. -/
theorem stage_failures_never_abort_batch (files : List (String × DocOracle))
    (h : ∀ f ∈ files, f.2.pushResult.isSome = true ∧ safeJson f.2.jsonLoads) :
    (mainRun files).2 = none := by
  induction files with
  | nil => rfl
  | cons f rest ih =>
    have h1 := (h f (List.mem_cons_self f rest)).1
    have h2 := (h f (List.mem_cons_self f rest)).2
    simp only [mainRun, processFile_no_error f.1 f.2 h1 h2]
    exact ih (fun g hg => h g (List.mem_cons_of_mem f hg))

/-- Oracle exercising the C1 witness: dedup query raises, MarkItDown fails,
PyPDF2 succeeds, both LLM calls raise, `json.loads` always raises, and the
record-creation POST returns a 2xx response. -/
def witnessedDocOracle : DocOracle :=
  { findQ := QueryResult.raised
    primary := MarkItDownResult.httpError
    fallbackPages := some [some "A result.", none, some "More text."]
    compressLLM := none
    summLLM := none
    jsonLoads := fun _ => none
    pushResult := some true }

/-- Witness for claim C1's theorem at a concrete failing-stages run. -/
theorem stage_failures_never_abort_batch_witness :
    (mainRun [("paper.pdf", witnessedDocOracle)]).2 = none :=
  stage_failures_never_abort_batch [("paper.pdf", witnessedDocOracle)]
    (by
      intro f hf
      simp only [List.mem_singleton] at hf
      subst hf
      exact ⟨rfl, fun s v hv => by cases hv⟩)

/-! ## Claim C2 -/

/-- Claim C2 counterexample: on the empty input string, `summarize_text`
maps the `tags` key to the empty *string*, not to an empty sequence,
refuting "every missing key defaults to the empty string except tags, which
defaults to an empty sequence" for this input. -/
theorem empty_input_tags_is_string :
    dictGet (summarize_text (fun _ => none) none "") "tags"
      = some (PyVal.str "")
    ∧ dictGet (summarize_text (fun _ => none) none "") "tags"
      ≠ some (PyVal.list []) :=
  ⟨rfl, fun h => PyVal.noConfusion (Option.some.inj h)⟩

/-- Claim C2 (amended): `summarize_text` is total and always returns a
record containing all eight required keys; on the empty input every one of
the eight values is the empty string, `tags` included; on a successfully
parsed LLM response, each of the eight keys missing from the parsed dict is
filled with its default — empty string, or the empty sequence for `tags` —
while present keys keep their parsed values. -/
theorem summarize_total_with_defaults (jl : String → Option PyVal)
    (llm : Option LLMMessage) (text : String) :
    (∀ k ∈ requiredKeys, (dictGet (summarize_text jl llm text) k).isSome = true)
    ∧ (text = "" →
        summarize_text jl llm text
          = requiredKeys.map (fun k => (k, PyVal.str "")))
    ∧ (∀ m kvs, text ≠ "" → llm = some m →
        jl (extractJsonStr (rawOutput m)) = some (PyVal.dict kvs) →
        ∀ k ∈ requiredKeys,
          dictGet (summarize_text jl llm text) k
            = some ((dictGet kvs k).getD (defaultFor k))) := by
  refine ⟨fun k hk => summarize_isSome jl llm text hk, ?_, ?_⟩
  · intro he
    unfold summarize_text
    rw [if_pos he]
  · intro m kvs hne hllm hjl k hk
    subst hllm
    unfold summarize_text
    rw [if_neg hne]
    simp only [hjl]
    exact dictGet_ensureKeys kvs hk

/-- Witness for claim C2's theorem: a parse-success run whose dict carries
only a `title`, checked at the defaulted `tags` key and at a present
key. -/
theorem summarize_total_with_defaults_witness :
    dictGet (summarize_text
        (fun _ => some (PyVal.dict [("title", PyVal.str "T")]))
        (some ⟨some "x", none⟩) "Hi.") "tags" = some (PyVal.list [])
    ∧ dictGet (summarize_text
        (fun _ => some (PyVal.dict [("title", PyVal.str "T")]))
        (some ⟨some "x", none⟩) "Hi.") "title" = some (PyVal.str "T") := by
  have h := summarize_total_with_defaults
    (fun _ => some (PyVal.dict [("title", PyVal.str "T")]))
    (some ⟨some "x", none⟩) "Hi."
  constructor
  · have := h.2.2 ⟨some "x", none⟩ [("title", PyVal.str "T")]
      (by decide) rfl rfl "tags" (by simp [requiredKeys])
    rw [this]
    rfl
  · have := h.2.2 ⟨some "x", none⟩ [("title", PyVal.str "T")]
      (by decide) rfl rfl "title" (by simp [requiredKeys])
    rw [this]
    rfl

/-! ## Claim C3 -/

theorem processFile_creates (n : String) (o : DocOracle) (s : String) (b : Bool)
    (hfind : find_notion_page_by_file_name o.findQ = none)
    (htext : ¬ pyStrip (extract_text_from_pdf o.primary o.fallbackPages) = "")
    (hosv : dictGet (summarize_text o.jsonLoads o.summLLM
        (compress_text_with_fireworks o.compressLLM
          (extract_text_from_pdf o.primary o.fallbackPages)))
        "one_sentence_summary" = some (PyVal.str s))
    (hs : ¬ pyStrip s = "")
    (hpl : (push_to_notion_payload n (summarize_text o.jsonLoads o.summLLM
        (compress_text_with_fireworks o.compressLLM
          (extract_text_from_pdf o.primary o.fallbackPages)))).isSome = true)
    (hpush : o.pushResult = some b) :
    processFile n o = ([Event.extractCall n, Event.compressCall n,
      Event.summarizeCall n, Event.createCall n], none) := by
  obtain ⟨pl, hpl'⟩ := Option.isSome_iff_exists.1 hpl
  unfold processFile
  rw [hfind]
  simp only [if_neg htext, dictGetD, hosv, Option.getD_some, if_neg hs,
    hpl', hpush]
  rfl

theorem dedupSkip_createNames (files : List (String × DocOracle)) :
    createNames (files.map (fun f => Event.dedupSkip f.1)) = [] := by
  induction files with
  | nil => rfl
  | cons f rest ih => simp [createNames, List.filterMap_cons, ih]

theorem dedupSkip_extractNames (files : List (String × DocOracle)) :
    extractNames (files.map (fun f => Event.dedupSkip f.1)) = [] := by
  induction files with
  | nil => rfl
  | cons f rest ih => simp [extractNames, List.filterMap_cons, ih]

theorem dedupSkip_compressNames (files : List (String × DocOracle)) :
    compressNames (files.map (fun f => Event.dedupSkip f.1)) = [] := by
  induction files with
  | nil => rfl
  | cons f rest ih => simp [compressNames, List.filterMap_cons, ih]

theorem dedupSkip_summarizeNames (files : List (String × DocOracle)) :
    summarizeNames (files.map (fun f => Event.dedupSkip f.1)) = [] := by
  induction files with
  | nil => rfl
  | cons f rest ih => simp [summarizeNames, List.filterMap_cons, ih]

/-- Claim C3: (i) when every document of the folder already has a matching
record under the File-Name dedup key, the run issues zero create calls and
invokes zero extraction, compression or summarization stages; (ii) with one
new document (whose pipeline reaches the create) and one already-recorded
document, exactly one create call is issued, for the new document only, and
the recorded document triggers no stage call. -/
theorem dedup_idempotence_and_single_create :
    (∀ files : List (String × DocOracle),
      (∀ f ∈ files, (find_notion_page_by_file_name f.2.findQ).isSome = true) →
      createNames (mainRun files).1 = [] ∧
      extractNames (mainRun files).1 = [] ∧
      compressNames (mainRun files).1 = [] ∧
      summarizeNames (mainRun files).1 = [] ∧
      (mainRun files).2 = none)
    ∧ (∀ (n1 n2 : String) (o1 o2 : DocOracle) (s : String) (b : Bool),
      find_notion_page_by_file_name o1.findQ = none →
      (find_notion_page_by_file_name o2.findQ).isSome = true →
      ¬ pyStrip (extract_text_from_pdf o1.primary o1.fallbackPages) = "" →
      dictGet (summarize_text o1.jsonLoads o1.summLLM
          (compress_text_with_fireworks o1.compressLLM
            (extract_text_from_pdf o1.primary o1.fallbackPages)))
          "one_sentence_summary" = some (PyVal.str s) →
      ¬ pyStrip s = "" →
      (push_to_notion_payload n1 (summarize_text o1.jsonLoads o1.summLLM
          (compress_text_with_fireworks o1.compressLLM
            (extract_text_from_pdf o1.primary o1.fallbackPages)))).isSome = true →
      o1.pushResult = some b →
      createNames (mainRun [(n1, o1), (n2, o2)]).1 = [n1] ∧
      extractNames (mainRun [(n1, o1), (n2, o2)]).1 = [n1] ∧
      compressNames (mainRun [(n1, o1), (n2, o2)]).1 = [n1] ∧
      summarizeNames (mainRun [(n1, o1), (n2, o2)]).1 = [n1] ∧
      (mainRun [(n1, o1), (n2, o2)]).2 = none) := by
  constructor
  · intro files h
    rw [mainRun_all_found files h]
    exact ⟨dedupSkip_createNames files, dedupSkip_extractNames files,
      dedupSkip_compressNames files, dedupSkip_summarizeNames files, rfl⟩
  · intro n1 n2 o1 o2 s b hfind1 hfind2 htext hosv hs hpl hpush
    have h1 := processFile_creates n1 o1 s b hfind1 htext hosv hs hpl hpush
    have h2 := processFile_found n2 o2 hfind2
    simp only [mainRun, h1, h2]
    refine ⟨?_, ?_, ?_, ?_, trivial⟩ <;>
      simp [createNames, extractNames, compressNames, summarizeNames,
        List.filterMap_cons]

/-- Oracle of a document not yet in the store whose pipeline reaches the
record creation: empty dedup query result, successful MarkItDown
extraction, successful compression, raising summarization LLM call
(extractive fallback), 2xx create response. -/
def newDocOracle : DocOracle :=
  { findQ := QueryResult.response true
      (some (PyVal.dict [("results", PyVal.list [])]))
    primary := MarkItDownResult.ok
      (PyVal.dict [("text", PyVal.str "New method. It works.")])
    fallbackPages := none
    compressLLM := some ⟨some "Compressed. Text.", none⟩
    summLLM := none
    jsonLoads := fun _ => none
    pushResult := some true }

/-- Oracle of a document already recorded in the store: the File-Name
dedup query returns one matching page. -/
def recordedDocOracle : DocOracle :=
  { findQ := QueryResult.response true
      (some (PyVal.dict [("results",
        PyVal.list [PyVal.dict [("id", PyVal.str "p2")]])]))
    primary := MarkItDownResult.netError
    fallbackPages := none
    compressLLM := none
    summLLM := none
    jsonLoads := fun _ => none
    pushResult := some true }

/-- Witness for claim C3's theorem: an all-recorded folder issues zero
creates, and a folder with one new and one recorded document issues exactly
one create, for the new document. -/
theorem dedup_idempotence_and_single_create_witness :
    createNames (mainRun [("paper2.pdf", recordedDocOracle)]).1 = []
    ∧ createNames (mainRun [("paper1.pdf", newDocOracle),
        ("paper2.pdf", recordedDocOracle)]).1 = ["paper1.pdf"]
    ∧ summarizeNames (mainRun [("paper1.pdf", newDocOracle),
        ("paper2.pdf", recordedDocOracle)]).1 = ["paper1.pdf"] := by
  refine ⟨?_, ?_, ?_⟩
  · exact (dedup_idempotence_and_single_create.1
      [("paper2.pdf", recordedDocOracle)]
      (by
        intro f hf
        simp only [List.mem_singleton] at hf
        subst hf
        rfl)).1
  · exact (dedup_idempotence_and_single_create.2 "paper1.pdf" "paper2.pdf"
      newDocOracle recordedDocOracle "Compressed.  Text." true
      rfl rfl (by decide) rfl (by decide) rfl rfl).1
  · exact (dedup_idempotence_and_single_create.2 "paper1.pdf" "paper2.pdf"
      newDocOracle recordedDocOracle "Compressed.  Text." true
      rfl rfl (by decide) rfl (by decide) rfl rfl).2.2.2.1

/-! ## Claim C4 -/

/-- Claim C4 counterexample: a *successful* LLM call whose completion is
empty makes `compress_text_with_fireworks` return the empty string, not the
original input, refuting "if the LLM call fails in any way — network error,
provider error, or an empty completion — the result equals the original
input". -/
theorem empty_completion_not_identity :
    compress_text_with_fireworks (some ⟨some "", some ""⟩) "hello" = ""
    ∧ compress_text_with_fireworks (some ⟨some "", some ""⟩) "hello"
      ≠ "hello" :=
  ⟨rfl, by decide⟩

/-- Claim C4 (amended): for every input with non-whitespace content, when
the LLM call *raises* (network or provider error, or a response with no
choices) the output is exactly the original input text; a call that
succeeds but yields an empty (or all-whitespace) completion instead
produces the empty string. -/
theorem compress_failure_identity (text : String)
    (h : ¬ pyStrip text = "") :
    compress_text_with_fireworks none text = text
    ∧ ∀ m : LLMMessage, rawOutput m = "" →
        compress_text_with_fireworks (some m) text = "" := by
  constructor
  · unfold compress_text_with_fireworks
    rw [if_neg h]
  · intro m hm
    unfold compress_text_with_fireworks
    rw [if_neg h]
    exact hm

/-- Witness for claim C4's theorem at the input "hello". -/
theorem compress_failure_identity_witness :
    compress_text_with_fireworks none "hello" = "hello"
    ∧ compress_text_with_fireworks (some ⟨none, some "   "⟩) "hello" = "" :=
  ⟨(compress_failure_identity "hello" (by decide)).1,
   (compress_failure_identity "hello" (by decide)).2 ⟨none, some "   "⟩
     (by decide)⟩

/-! ## Claim C5 -/

/-- Claim C5: when the summarization LLM call raises, the returned record's
`one_sentence_summary` is the first three regex sentence matches joined by
a single space, or the first 300 characters of the input when the regex
finds no sentence, and every other required key holds its default. -/
theorem summarize_fallback_extractive (jl : String → Option PyVal)
    (text : String) (h : text ≠ "") :
    dictGet (summarize_text jl none text) "one_sentence_summary"
      = some (PyVal.str
          (if (findSentences text.data).isEmpty then pyTake 300 text
           else String.intercalate " " ((findSentences text.data).take 3)))
    ∧ ∀ k ∈ requiredKeys, k ≠ "one_sentence_summary" →
        dictGet (summarize_text jl none text) k = some (defaultFor k) := by
  constructor
  · unfold summarize_text
    rw [if_neg h]
    rw [dictGet_fallbackRecord text osv_mem_requiredKeys]
    simp [fallbackSummary]
  · intro k hk hkne
    unfold summarize_text
    rw [if_neg h]
    rw [dictGet_fallbackRecord text hk, if_neg hkne]

/-- Witness for claim C5's theorem: a three-sentence input, an input with
no sentence boundary, and a defaulted key. -/
theorem summarize_fallback_extractive_witness :
    dictGet (summarize_text (fun _ => none) none "Hi. Bye. Yes. No.")
      "one_sentence_summary" = some (PyVal.str "Hi.  Bye.  Yes.")
    ∧ dictGet (summarize_text (fun _ => none) none "abc")
      "one_sentence_summary" = some (PyVal.str "abc")
    ∧ dictGet (summarize_text (fun _ => none) none "Hi. Bye. Yes. No.")
      "tags" = some (PyVal.list []) := by
  refine ⟨?_, ?_, ?_⟩
  · rw [(summarize_fallback_extractive (fun _ => none) "Hi. Bye. Yes. No."
      (by decide)).1]
    rfl
  · rw [(summarize_fallback_extractive (fun _ => none) "abc" (by decide)).1]
    rfl
  · rw [(summarize_fallback_extractive (fun _ => none) "Hi. Bye. Yes. No."
      (by decide)).2 "tags" (by simp [requiredKeys]) (by decide)]
    rfl

/-! ## Claim C6 -/

/-- Claim C6 counterexample: a `tags` value that is the single string
`"ml"` is iterated character by character, transmitting the two one-letter
entries `"m"` and `"l"` — not a one-item tag list containing `"ml"`. -/
theorem string_tags_iterates_chars :
    (push_to_notion_payload "f.pdf" [("tags", PyVal.str "ml")]).map
      NotionPayload.tags = some ["m", "l"]
    ∧ (push_to_notion_payload "f.pdf" [("tags", PyVal.str "ml")]).map
      NotionPayload.tags ≠ some ["ml"] :=
  ⟨rfl, by decide⟩

/-- Claim C6 (amended): a `tags` value that is a list of strings is
transmitted element-wise (so `["ml", "nlp"]` yields exactly the two entries
`"ml"` and `"nlp"`), while a `tags` value that is a single string is
iterated character by character, producing one single-character entry per
character rather than a one-item list. -/
theorem tags_normalization (name : String) (sd : List (String × PyVal)) :
    (∀ xs : List String,
      dictGetD sd "tags" (PyVal.list []) = PyVal.list (xs.map PyVal.str) →
      ∃ pl, push_to_notion_payload name sd = some pl ∧ pl.tags = xs)
    ∧ (∀ str : String,
      dictGetD sd "tags" (PyVal.list []) = PyVal.str str →
      ∃ pl, push_to_notion_payload name sd = some pl
        ∧ pl.tags = str.data.map String.singleton) := by
  constructor
  · intro xs hx
    unfold push_to_notion_payload
    rw [hx]
    simp only [pyIter]
    refine ⟨_, rfl, ?_⟩
    simp only [List.map_map]
    have : (normalize_text ∘ PyVal.str) = id := by
      funext x
      rfl
    rw [this, List.map_id]
  · intro str hs
    unfold push_to_notion_payload
    rw [hs]
    simp only [pyIter]
    refine ⟨_, rfl, ?_⟩
    simp only [List.map_map]
    congr 1

/-- Witness for claim C6's theorem: the spec's own list example and a
string example. -/
theorem tags_normalization_witness :
    (push_to_notion_payload "f.pdf"
      [("tags", PyVal.list [PyVal.str "ml", PyVal.str "nlp"])]).map
      NotionPayload.tags = some ["ml", "nlp"]
    ∧ (push_to_notion_payload "g.pdf" [("tags", PyVal.str "ab")]).map
      NotionPayload.tags = some ["a", "b"] := by
  constructor
  · obtain ⟨pl, hpl, htags⟩ := (tags_normalization "f.pdf"
      [("tags", PyVal.list [PyVal.str "ml", PyVal.str "nlp"])]).1
      ["ml", "nlp"] rfl
    rw [hpl]
    simp [htags]
  · obtain ⟨pl, hpl, htags⟩ := (tags_normalization "g.pdf"
      [("tags", PyVal.str "ab")]).2 "ab" rfl
    rw [hpl]
    simp [htags]
    exact ⟨rfl, rfl⟩

/-! ## Claim C7 -/

/-- Claim C7 counterexample: with the primary path failing and pages
extracting to `"a"` and `""`, the fallback returns `"a"` — the `strip()` of
the space-joined page texts — while the claimed space-separated
concatenation is `"a "`; the two differ. -/
theorem fallback_join_is_stripped :
    extract_text_from_pdf MarkItDownResult.netError (some [some "a", some ""])
      = "a"
    ∧ String.intercalate " "
        (([some "a", some ""] : List (Option String)).map (fun p => p.getD ""))
      = "a "
    ∧ ("a" : String) ≠ "a " :=
  ⟨rfl, rfl, by decide⟩

/-- Claim C7 (amended): when the primary extraction path fails and the
local page-by-page fallback succeeds, the result is the space-joined
concatenation of the per-page texts (a failed page contributing the empty
string) *stripped of leading and trailing whitespace*; when the fallback
also fails, the result is the empty string. -/
theorem extraction_fallback_join (primary : MarkItDownResult)
    (pages : List (Option String)) (h : primaryText primary = none) :
    extract_text_from_pdf primary (some pages)
      = pyStrip (String.intercalate " " (pages.map (fun p => p.getD "")))
    ∧ extract_text_from_pdf primary none = "" := by
  unfold extract_text_from_pdf
  rw [h]
  exact ⟨rfl, rfl⟩

/-- Witness for claim C7's theorem: a MarkItDown network failure with a
three-page PyPDF2 result whose middle page fails, and a total failure. -/
theorem extraction_fallback_join_witness :
    extract_text_from_pdf MarkItDownResult.netError
      (some [some "First page.", none, some "Last page."])
      = "First page.  Last page."
    ∧ extract_text_from_pdf MarkItDownResult.netError none = "" := by
  constructor
  · rw [(extraction_fallback_join MarkItDownResult.netError
      [some "First page.", none, some "Last page."] rfl).1]
    rfl
  · exact (extraction_fallback_join MarkItDownResult.netError [] rfl).2

/-! ## Claim C8 -/

/-- Claim C8: the File-Name dedup query returns the first page of a
nonempty result list, `None` for an empty or missing result list, and
`None` on every query failure — a raised POST, a non-2xx response, or an
undecodable body — so the orchestrator proceeds as if the document were
new. -/
theorem find_by_filename_first_or_none :
    find_notion_page_by_file_name QueryResult.raised = none
    ∧ (∀ body, find_notion_page_by_file_name (QueryResult.response false body)
        = none)
    ∧ find_notion_page_by_file_name (QueryResult.response true none) = none
    ∧ (∀ kvs page rest,
        dictGet kvs "results" = some (PyVal.list (page :: rest)) →
        find_notion_page_by_file_name
          (QueryResult.response true (some (PyVal.dict kvs))) = some page)
    ∧ (∀ kvs,
        dictGet kvs "results" = none
          ∨ dictGet kvs "results" = some (PyVal.list []) →
        find_notion_page_by_file_name
          (QueryResult.response true (some (PyVal.dict kvs))) = none) := by
  refine ⟨rfl, fun body => rfl, rfl, ?_, ?_⟩
  · intro kvs page rest h
    unfold find_notion_page_by_file_name
    simp only [dictGetD, h, Option.getD_some]
    rfl
  · intro kvs h
    unfold find_notion_page_by_file_name
    rcases h with h | h <;> simp only [dictGetD, h] <;> rfl

/-- Witness for claim C8's theorem: a one-page result, an empty result and
a missing results field. -/
theorem find_by_filename_first_or_none_witness :
    find_notion_page_by_file_name (QueryResult.response true
        (some (PyVal.dict [("results",
          PyVal.list [PyVal.dict [("id", PyVal.str "p1")]])])))
      = some (PyVal.dict [("id", PyVal.str "p1")])
    ∧ find_notion_page_by_file_name (QueryResult.response true
        (some (PyVal.dict [("results", PyVal.list [])]))) = none
    ∧ find_notion_page_by_file_name (QueryResult.response true
        (some (PyVal.dict []))) = none :=
  ⟨find_by_filename_first_or_none.2.2.2.1
      [("results", PyVal.list [PyVal.dict [("id", PyVal.str "p1")]])]
      (PyVal.dict [("id", PyVal.str "p1")]) [] rfl,
   find_by_filename_first_or_none.2.2.2.2
      [("results", PyVal.list [])] (Or.inr rfl),
   find_by_filename_first_or_none.2.2.2.2 [] (Or.inl rfl)⟩

/-! ## Claim C9 -/

/-- Claim C9: on any input whose characters are all whitespace — including
non-empty whitespace-only strings — `compress_text_with_fireworks` returns
the empty string regardless of the LLM oracle, i.e. without invoking the
provider: whitespace-only text is dropped rather than passed through. -/
theorem whitespace_only_compress_empty (llm : Option LLMMessage)
    (text : String) (h : pyStrip text = "") :
    compress_text_with_fireworks llm text = "" := by
  unfold compress_text_with_fireworks
  rw [if_pos h]

/-- Witness for claim C9's theorem: the non-empty whitespace-only input
returns the empty string even under an LLM oracle that would produce
output. -/
theorem whitespace_only_compress_empty_witness :
    pyStrip "  	 " = ""
    ∧ compress_text_with_fireworks (some ⟨some "OUTPUT", none⟩) "  	 " = "" :=
  ⟨by decide,
   whitespace_only_compress_empty (some ⟨some "OUTPUT", none⟩) "  	 "
     (by decide)⟩

/-! ## Claim C10 -/

/-- Claim C10: a created page's `Title` is the normalized summary title when
the `title` value is present and truthy, and otherwise the document's
filename; in particular, when summarization produced no title (a missing or
empty-string `title`) and the filename is nonempty, the created page's
`Title` is the nonempty filename. -/
theorem title_fallback_to_filename (name : String)
    (sd : List (String × PyVal)) (pl : NotionPayload)
    (h : push_to_notion_payload name sd = some pl) :
    (∀ v, dictGet sd "title" = some v → pyTruthy v = true →
      pl.title = normalize_text v)
    ∧ (∀ v, dictGet sd "title" = some v → pyTruthy v = false →
      pl.title = name)
    ∧ (dictGet sd "title" = none → pl.title = name)
    ∧ (¬ name = "" →
        (dictGet sd "title" = none
          ∨ dictGet sd "title" = some (PyVal.str "")) →
        ¬ pl.title = "") := by
  unfold push_to_notion_payload at h
  cases hiter : pyIter (dictGetD sd "tags" (PyVal.list [])) with
  | none => rw [hiter] at h; cases h
  | some ts =>
    rw [hiter] at h
    have hpl := (Option.some.inj h).symm
    refine ⟨?_, ?_, ?_, ?_⟩
    · intro v hv htr
      rw [hpl]
      simp only [hv, htr, if_true]
    · intro v hv htr
      rw [hpl]
      simp only [hv, htr, if_false]
      rfl
    · intro hv
      rw [hpl]
      simp only [hv]
      rfl
    · intro hname hdisj
      rcases hdisj with hv | hv
      · rw [hpl]
        simp only [hv]
        exact hname
      · rw [hpl]
        simp only [hv, pyTruthy]
        simp only [beq_self_eq_true, Bool.not_true, Bool.false_eq_true,
          if_false]
        exact hname

/-- Witness for claim C10's theorem: a record with no title falls back to
the filename, and a truthy title wins. -/
theorem title_fallback_to_filename_witness :
    (push_to_notion_payload "x.pdf" []).map NotionPayload.title = some "x.pdf"
    ∧ (push_to_notion_payload "x.pdf"
        [("title", PyVal.str "Real Title")]).map NotionPayload.title
      = some "Real Title" := by
  constructor
  · cases hp : push_to_notion_payload "x.pdf" [] with
    | none => exact absurd hp (by decide)
    | some pl =>
      have := (title_fallback_to_filename "x.pdf" [] pl hp).2.2.1 rfl
      simp [this]
  · cases hp : push_to_notion_payload "x.pdf"
        [("title", PyVal.str "Real Title")] with
    | none => exact absurd hp (by decide)
    | some pl =>
      have := (title_fallback_to_filename "x.pdf"
        [("title", PyVal.str "Real Title")] pl hp).1
        (PyVal.str "Real Title") rfl (by decide)
      simp [this]
      rfl

end Ivy
